import Mathlib

/-!
Verification of the task-lifecycle and consensus engine of the mock
labeling-portal backend (`app/services.py`, `app/database.py`,
`app/schemas.py`).  Python floats are modelled as rationals, Python
`round(x, n)` as round-half-to-even on exact rationals, Python `dict`s as
insertion-ordered association lists, and `defaultdict` access as a
get-or-insert operation that threads the store.  Non-deterministic inputs
of the code (UUIDs, wall-clock time, the simulated elapsed-time sample)
are explicit parameters.
-/

set_option maxRecDepth 4000

namespace App

/-- Round-half-to-even on rationals, the semantics of Python `round` applied
to an exactly represented value. -/
def rndHalfEven (q : ℚ) : ℤ :=
  if q - q.floor < 1/2 then q.floor
  else if 1/2 < q - q.floor then q.floor + 1
  else if q.floor % 2 = 0 then q.floor else q.floor + 1

/-- Python `round(x, 3)` on an exact rational. -/
def round3 (q : ℚ) : ℚ := (rndHalfEven (q * 1000) : ℚ) / 1000

/-- Python `round(x, 2)` on an exact rational. -/
def round2 (q : ℚ) : ℚ := (rndHalfEven (q * 100) : ℚ) / 100

/-- Whitespace splitting of a lower-cased string: `s.lower().split()` in the
source.  Splits on runs of whitespace and drops empty fragments. -/
def splitWordsAux : List Char → List Char → List String
  | [], acc => if acc.isEmpty then [] else [String.mk acc.reverse]
  | c :: cs, acc =>
    if c.isWhitespace then
      if acc.isEmpty then splitWordsAux cs []
      else String.mk acc.reverse :: splitWordsAux cs []
    else splitWordsAux cs (c :: acc)

/-- The word list of `s.lower().split()`. -/
def wordsOf (s : String) : List String :=
  splitWordsAux (s.toList.map Char.toLower) []

/-- Cardinality of the Python set built from a word list:
`len(set(xs))`. -/
def pySetCard (xs : List String) : ℕ := xs.dedup.length

/-- Cardinality of the intersection of two Python sets built from word
lists: `len(set(xs) & set(ys))`. -/
def pySetInterCard (xs ys : List String) : ℕ :=
  ((xs.dedup).filter (fun w => w ∈ ys)).length

/-- Embeds `_semantic_similarity` from `app/services.py`:
overlap of the lower-cased word sets over `max(|A| + |B|, 1)`, rounded to
3 decimals. -/
def semantic_similarity (a b : String) : ℚ :=
  let overlap : ℕ := pySetInterCard (wordsOf a) (wordsOf b)
  let total : ℕ := max (pySetCard (wordsOf a) + pySetCard (wordsOf b)) 1
  round3 ((overlap : ℚ) / (total : ℚ))

/-- The word set of a string as a `Finset`, used by the specification-side
formula of the similarity primitive. -/
def wordSet (s : String) : Finset String := (wordsOf s).toFinset

/-- The similarity formula exactly as the specification words it:
`|words(a) ∩ words(b)| / max(|words(a)| + |words(b)|, 1)` rounded to
3 decimals, with word sets as mathematical finite sets. -/
def semantic_similarity_spec (a b : String) : ℚ :=
  round3 (((wordSet a ∩ wordSet b).card : ℚ) /
    ((max ((wordSet a).card + (wordSet b).card) 1 : ℕ) : ℚ))

/-- The priority tiers of `app/schemas.py` (`TaskPriority`, an int enum). -/
inductive TaskPriority
  | low
  | medium
  | high
deriving DecidableEq

/-- The numeric value of a priority tier: low = 1, medium = 5, high = 10. -/
def TaskPriority.value : TaskPriority → ℕ
  | .low => 1
  | .medium => 5
  | .high => 10

/-- The four status strings a task takes in `app/services.py`. -/
inductive TaskStatus
  | pending
  | assigned
  | awaiting_review
  | finalized
deriving DecidableEq

/-- Embeds `Task` from `app/schemas.py`.  Timestamps are abstract ticks. -/
structure Task where
  id : String
  video_id : String
  priority : TaskPriority
  assigned_to : Option String
  status : TaskStatus
  created_at : ℕ
  updated_at : ℕ
  uncertainty : ℚ
deriving DecidableEq

/-- The `Annotation` record of `app/schemas.py` (named `Ann` here). -/
structure Ann where
  id : String
  task_id : String
  annotator_id : String
  caption : String
  created_at : ℕ
deriving DecidableEq

/-- Embeds `Vote` from `app/schemas.py`. -/
structure Vote where
  id : String
  task_id : String
  annotator_id : String
  score : ℚ
  rationale : Option String
  created_at : ℕ
deriving DecidableEq

/-- Embeds `ConsensusResult` from `app/schemas.py`. -/
structure ConsensusResult where
  task_id : String
  consensus_caption : String
  semantic_agreement : ℚ
  llm_confidence : ℚ
  finalized_at : ℕ
deriving DecidableEq

/-- The per-annotator metrics dict of `MemoryDatabase.annotator_metrics`. -/
structure Metrics where
  completed : ℕ
  total_seconds : ℚ
  disagreements : ℕ
  reliability : ℚ
deriving DecidableEq

/-- The default value the `annotator_metrics` defaultdict creates. -/
def defaultMetrics : Metrics :=
  { completed := 0, total_seconds := 0, disagreements := 0, reliability := 1/2 }

/-- Embeds `ReliabilityMetrics` from `app/schemas.py`. -/
structure ReliabilityMetrics where
  annotator_id : String
  reliability : ℚ
  throughput : ℕ
  average_task_seconds : ℚ
  disagreement_rate : ℚ
deriving DecidableEq

/-- The two exception kinds the engine raises: `KeyError` (not found) and
`ValueError` (validation failure). -/
inductive Err
  | notFound
  | validation
deriving DecidableEq

/-- Embeds `MemoryDatabase` from `app/database.py`.  Python dicts are
insertion-ordered association lists; the `defaultdict`s are the same lists
accessed through `ddget`. -/
structure DB where
  tasks : List (String × Task)
  annotations : List (String × Ann)
  task_annotations : List (String × List String)
  votes : List (String × Vote)
  task_votes : List (String × List String)
  consensus : List (String × ConsensusResult)
  annotator_metrics : List (String × Metrics)
deriving DecidableEq

/-- The empty store (`MemoryDatabase.__init__`). -/
def emptyDB : DB :=
  { tasks := [], annotations := [], task_annotations := [], votes := [],
    task_votes := [], consensus := [], annotator_metrics := [] }

/-- Python dict assignment `d[k] = v`: replace in place if the key exists,
append otherwise. -/
def setk {α : Type} (l : List (String × α)) (k : String) (v : α) :
    List (String × α) :=
  match l with
  | [] => [(k, v)]
  | (k', v') :: rest =>
    if k' = k then (k', v) :: rest else (k', v') :: setk rest k v

/-- Python `defaultdict` subscription `d[k]`: return the stored value, or
insert and return the default.  Returns the value and the updated map. -/
def ddget {α : Type} (l : List (String × α)) (k : String) (d : α) :
    α × List (String × α) :=
  match l.lookup k with
  | some v => (v, l)
  | none => (d, l ++ [(k, d)])

/-- A placeholder annotation record; `DB.annotations[i]` is only read for
identifiers that are present, so the placeholder is never observable. -/
def dummyAnn : Ann :=
  { id := "", task_id := "", annotator_id := "", caption := "", created_at := 0 }

/-- Embeds `_calculate_priority` from `app/services.py`: scaled score is
`uncertainty * 10 + difficulty`, thresholds 12 and 7. -/
def calculate_priority (uncertainty : ℚ) (difficulty : TaskPriority) :
    TaskPriority :=
  let scaled := uncertainty * 10 + (difficulty.value : ℚ)
  if 12 ≤ scaled then .high
  else if 7 ≤ scaled then .medium
  else .low

/-- Embeds `create_task` from `app/services.py`; the fresh UUID and the clock are
explicit parameters. -/
def create_task (video_id : String) (uncertainty : ℚ)
    (difficulty : TaskPriority) (task_id : String) (now : ℕ) (db : DB) :
    Task × DB :=
  let task : Task :=
    { id := task_id, video_id := video_id,
      priority := calculate_priority uncertainty difficulty,
      assigned_to := none, status := .pending, created_at := now,
      updated_at := now, uncertainty := uncertainty }
  (task, { db with tasks := setk db.tasks task_id task })

/-- The sort order of `list_tasks`: the Python key
`(-t.priority.value, t.created_at)` compared lexicographically. -/
def taskLE (a b : Task) : Prop :=
  b.priority.value < a.priority.value ∨
    (a.priority.value = b.priority.value ∧ a.created_at ≤ b.created_at)

instance : DecidableRel taskLE := fun a b => by
  unfold taskLE; infer_instance

instance : IsTotal Task taskLE := by
  constructor; intro a b; unfold taskLE; omega

instance : IsTrans Task taskLE := by
  constructor; intro a b c; unfold taskLE; omega

/-- Embeds `list_tasks` from `app/services.py`: the task dict's values sorted by
priority descending then creation time ascending; Python `sorted` is
stable, as is `List.insertionSort`. -/
def list_tasks (db : DB) : List Task :=
  List.insertionSort taskLE (db.tasks.map Prod.snd)

/-- The scan of `request_assignment`'s `for` loop: the first task that is
pending and is not a high-priority task while the reliability is
below 0.6. -/
def findAssignable (reliability : ℚ) : List Task → Option Task
  | [] => none
  | task :: rest =>
    if task.status ≠ TaskStatus.pending then findAssignable reliability rest
    else if task.priority = TaskPriority.high ∧ reliability < 6/10 then
      findAssignable reliability rest
    else some task

/-- Embeds `request_assignment` from `app/services.py`.  Reading
`DB.annotator_metrics[annotator_id]` is a defaultdict access and may
insert a default entry. -/
def request_assignment (annotator_id : String) (now : ℕ) (db : DB) :
    Option Task × DB :=
  let got := ddget db.annotator_metrics annotator_id defaultMetrics
  let reliability := got.1.reliability
  let db1 : DB := { db with annotator_metrics := got.2 }
  match findAssignable reliability (list_tasks db1) with
  | none => (none, db1)
  | some task =>
    let task' : Task :=
      { task with assigned_to := some annotator_id, status := .assigned,
                  updated_at := now }
    (some task', { db1 with tasks := setk db1.tasks task.id task' })

/-- Embeds `_compute_reliability` from `app/services.py`. -/
def compute_reliability (m : Metrics) : ℚ :=
  if m.completed = 0 then 1/2
  else
    let agreement_ratio : ℚ :=
      1 - ((m.disagreements : ℚ) / max (m.completed : ℚ) 1)
    let avg_time : ℚ := m.total_seconds / (m.completed : ℚ)
    let speed_factor : ℚ := min 1 (90 / max avg_time 1)
    round3 (max (1/10) (min (99/100)
      (4/10 * agreement_ratio + 6/10 * speed_factor)))

/-- Embeds `_update_metrics_on_completion` from `app/services.py`; `elapsed` is
the `random.uniform(45, 120)` sample.  Every defaultdict access threads
the store. -/
def update_metrics_on_completion (task_id annotator_id : String)
    (elapsed : ℚ) (db : DB) : DB :=
  let got := ddget db.annotator_metrics annotator_id defaultMetrics
  let m0 := got.1
  let db1 : DB := { db with annotator_metrics := got.2 }
  let m1 : Metrics :=
    { m0 with completed := m0.completed + 1,
              total_seconds := m0.total_seconds + elapsed }
  match db1.consensus.lookup task_id with
  | none =>
    let m3 : Metrics := { m1 with reliability := compute_reliability m1 }
    { db1 with annotator_metrics := setk db1.annotator_metrics annotator_id m3 }
  | some consensus =>
    let gotIds := ddget db1.task_annotations task_id []
    let db2 : DB := { db1 with task_annotations := gotIds.2 }
    let anns : List Ann :=
      gotIds.1.map (fun i => (db2.annotations.lookup i).getD dummyAnn)
    let extra := anns.countP
      (fun a =>
        decide (semantic_similarity a.caption consensus.consensus_caption
          < 7/10))
    let m2 : Metrics := { m1 with disagreements := m1.disagreements + extra }
    let m3 : Metrics := { m2 with reliability := compute_reliability m2 }
    { db2 with annotator_metrics := setk db2.annotator_metrics annotator_id m3 }

/-- Embeds `_maybe_update_task_status` from `app/services.py`: promotes to
`awaiting_review` whenever the task has at least three annotations,
whatever its current status.  Only called with an existing task. -/
def maybe_update_task_status (task_id : String) (now : ℕ) (db : DB) : DB :=
  match db.tasks.lookup task_id with
  | none => db
  | some task =>
    let gotIds := ddget db.task_annotations task_id []
    let db1 : DB := { db with task_annotations := gotIds.2 }
    if 3 ≤ gotIds.1.length then
      let task' : Task :=
        { task with status := .awaiting_review, updated_at := now }
      { db1 with tasks := setk db1.tasks task_id task' }
    else db1

/-- Embeds `submit_annotation` from `app/services.py` (named `submitAnn` here);
the fresh UUID, the clock and the simulated elapsed time are explicit
parameters. -/
def submitAnn (task_id annotator_id caption ann_id : String) (now : ℕ)
    (elapsed : ℚ) (db : DB) : Except Err Ann × DB :=
  if (db.tasks.lookup task_id).isNone then (.error .notFound, db)
  else
    let ann : Ann :=
      { id := ann_id, task_id := task_id, annotator_id := annotator_id,
        caption := caption, created_at := now }
    let db1 : DB := { db with annotations := setk db.annotations ann_id ann }
    let gotIds := ddget db1.task_annotations task_id []
    let newIds := gotIds.1 ++ [ann_id]
    let db2 : DB := { db1 with task_annotations := setk gotIds.2 task_id newIds }
    let db3 := update_metrics_on_completion task_id annotator_id elapsed db2
    let db4 := maybe_update_task_status task_id now db3
    (.ok ann, db4)

/-- Embeds `submit_vote` from `app/services.py`. -/
def submit_vote (task_id annotator_id : String) (score : ℚ)
    (rationale : Option String) (vote_id : String) (now : ℕ) (db : DB) :
    Except Err Vote × DB :=
  if (db.tasks.lookup task_id).isNone then (.error .notFound, db)
  else
    let vote : Vote :=
      { id := vote_id, task_id := task_id, annotator_id := annotator_id,
        score := score, rationale := rationale, created_at := now }
    let gotIds := ddget db.task_votes task_id []
    (.ok vote,
      { db with votes := setk db.votes vote_id vote,
                task_votes := setk gotIds.2 task_id (gotIds.1 ++ [vote_id]) })

/-- Python `max(captions, key=f)`: the first element with the largest key
(a later element replaces the current best only when strictly larger). -/
def pymax (f : String → ℚ) (x : String) : List String → String
  | [] => x
  | y :: ys => if f x < f y then pymax f y ys else pymax f x ys

/-- Embeds `_aggregate_semantic` from `app/services.py`: the first caption is the
centroid; the average similarity to the centroid and the caption most
similar to the centroid.  `none` models the `ValueError` on an empty
list. -/
def aggregate_semantic (captions : List String) : Option (String × ℚ) :=
  match captions with
  | [] => none
  | centroid :: rest =>
    let capts := centroid :: rest
    let similarities := capts.map (fun c => semantic_similarity centroid c)
    let avg := similarities.sum / (similarities.length : ℚ)
    let best := pymax (fun c => semantic_similarity c centroid) centroid rest
    some (best, round3 avg)

/-- Embeds `_mock_llm_evaluation` from `app/services.py`: a deterministic
confidence from the caption's byte length. -/
def mock_llm_evaluation (caption : String) : ℚ :=
  round3 (6/10 + min (4/10) ((caption.length : ℚ) / 200))

/-- Embeds `finalize_consensus` from `app/services.py`. -/
def finalize_consensus (task_id : String) (now : ℕ) (db : DB) :
    Except Err ConsensusResult × DB :=
  match db.tasks.lookup task_id with
  | none => (.error .notFound, db)
  | some task =>
    let gotIds := ddget db.task_annotations task_id []
    let db1 : DB := { db with task_annotations := gotIds.2 }
    let anns : List Ann :=
      gotIds.1.map (fun i => (db1.annotations.lookup i).getD dummyAnn)
    if anns.isEmpty then (.error .validation, db1)
    else
      match aggregate_semantic (anns.map (fun a => a.caption)) with
      | none => (.error .validation, db1)
      | some (caption, semantic_agreement) =>
        let consensus : ConsensusResult :=
          { task_id := task_id, consensus_caption := caption,
            semantic_agreement := semantic_agreement,
            llm_confidence := mock_llm_evaluation caption,
            finalized_at := now }
        let db2 : DB :=
          { db1 with consensus := setk db1.consensus task_id consensus }
        let task' : Task :=
          { task with status := .finalized, updated_at := now }
        (.ok consensus, { db2 with tasks := setk db2.tasks task_id task' })

/-- Embeds `get_reliability` from `app/services.py`; the defaultdict access may
insert a default entry, so the store is threaded. -/
def get_reliability (annotator_id : String) (db : DB) :
    ReliabilityMetrics × DB :=
  let got := ddget db.annotator_metrics annotator_id defaultMetrics
  let m := got.1
  let avg_time : ℚ := m.total_seconds / max (m.completed : ℚ) 1
  let disagreement_rate : ℚ := (m.disagreements : ℚ) / max (m.completed : ℚ) 1
  ({ annotator_id := annotator_id, reliability := round3 m.reliability,
     throughput := m.completed, average_task_seconds := round2 avg_time,
     disagreement_rate := round3 disagreement_rate },
   { db with annotator_metrics := got.2 })

/-- Embeds `dashboard_snapshot` from `app/services.py`: one `ReliabilityMetrics`
per key of the `annotator_metrics` dict, in insertion order. -/
def dashboard_snapshot (db : DB) : List (String × ReliabilityMetrics) :=
  db.annotator_metrics.map (fun p => (p.1, (get_reliability p.1 db).1))

/-- The reliability the assignment scan reads for an annotator: the stored
metrics entry, or the default for an unseen annotator. -/
def annotatorReliability (db : DB) (annotator_id : String) : ℚ :=
  ((db.annotator_metrics.lookup annotator_id).getD defaultMetrics).reliability

/-- Eligibility of a task for the assignment scan at a given reliability:
pending, and not high-priority while the reliability is below 0.6. -/
def eligible (reliability : ℚ) (t : Task) : Prop :=
  t.status = TaskStatus.pending ∧
    ¬(t.priority = TaskPriority.high ∧ reliability < 6/10)

instance (reliability : ℚ) (t : Task) : Decidable (eligible reliability t) := by
  unfold eligible; infer_instance

/-- The mutation `request_assignment` applies to the claimed task. -/
def assignUpdate (t0 : Task) (aid : String) (now : ℕ) : Task :=
  { t0 with assigned_to := some aid, status := TaskStatus.assigned,
            updated_at := now }

/-- Constructor shorthand for concrete tasks in the worked examples. -/
def mkTask (i : String) (p : TaskPriority) (st : TaskStatus) (c : ℕ) : Task :=
  { id := i, video_id := "v1", priority := p, assigned_to := none,
    status := st, created_at := c, updated_at := c, uncertainty := 1/2 }

/-- Constructor shorthand for concrete annotations in the worked examples. -/
def mkAnn (i t who cap : String) : Ann :=
  { id := i, task_id := t, annotator_id := who, caption := cap,
    created_at := 0 }

/-- The annotation record `submit_annotation` creates. -/
def newAnn (annId tid aid cap : String) (now : ℕ) : Ann :=
  { id := annId, task_id := tid, annotator_id := aid, caption := cap,
    created_at := now }

/-- Constructor shorthand for concrete metrics in the worked examples. -/
def mkMetrics (c : ℕ) (ts : ℚ) (d : ℕ) (r : ℚ) : Metrics :=
  { completed := c, total_seconds := ts, disagreements := d, reliability := r }

/-! ### Concrete stores for the worked examples -/

/-- A task with the three annotations of the specification's worked
consensus example, in submission order. -/
def dbC1 : DB :=
  { tasks := [( "t1", mkTask "t1" TaskPriority.medium TaskStatus.awaiting_review 0)],
    annotations := [( "a1", mkAnn "a1" "t1" "u1" "a cat sat"),
                    ( "a2", mkAnn "a2" "t1" "u2" "a cat sat on mat"),
                    ( "a3", mkAnn "a3" "t1" "u3" "a dog ran")],
    task_annotations := [( "t1", [ "a1", "a2", "a3"])],
    votes := [], task_votes := [], consensus := [], annotator_metrics := [] }

/-- The consensus record the code actually produces on `dbC1`. -/
def consC1 : ConsensusResult :=
  { task_id := "t1", consensus_caption := "a cat sat",
    semantic_agreement := 347/1000, llm_confidence := 645/1000,
    finalized_at := 7 }

/-- A finalized task that already has three annotations, plus a pending
low-priority task. -/
def dbC2 : DB :=
  { tasks := [( "t1", mkTask "t1" TaskPriority.medium TaskStatus.finalized 0),
              ( "t2", mkTask "t2" TaskPriority.low TaskStatus.pending 1)],
    annotations := [( "a1", mkAnn "a1" "t1" "u1" "x"),
                    ( "a2", mkAnn "a2" "t1" "u2" "y"),
                    ( "a3", mkAnn "a3" "t1" "u3" "z")],
    task_annotations := [( "t1", [ "a1", "a2", "a3"])],
    votes := [], task_votes := [], consensus := [], annotator_metrics := [] }

/-- The consensus record `finalize_consensus` produces on `dbC2`. -/
def consC2 : ConsensusResult :=
  { task_id := "t1", consensus_caption := "x",
    semantic_agreement := 167/1000, llm_confidence := 605/1000,
    finalized_at := 9 }

/-- The consensus record already stored for the re-annotation example. -/
def consC3 : ConsensusResult :=
  { task_id := "t1", consensus_caption := "x y z",
    semantic_agreement := 1/2, llm_confidence := 3/5, finalized_at := 5 }

/-- A finalized task with a stored consensus and two prior annotations,
about to receive a third. -/
def dbC3 : DB :=
  { tasks := [( "t1", mkTask "t1" TaskPriority.medium TaskStatus.finalized 0)],
    annotations := [( "a1", mkAnn "a1" "t1" "u1" "p q"),
                    ( "a2", mkAnn "a2" "t1" "u2" "r s")],
    task_annotations := [( "t1", [ "a1", "a2"])],
    votes := [], task_votes := [],
    consensus := [( "t1", consC3)],
    annotator_metrics := [] }

/-- One pending high-priority task and two annotators, one reliable and
one below the 0.6 gate. -/
def dbC4 : DB :=
  { tasks := [( "t1", mkTask "t1" TaskPriority.high TaskStatus.pending 0)],
    annotations := [], task_annotations := [], votes := [], task_votes := [],
    consensus := [],
    annotator_metrics := [( "good", mkMetrics 1 60 0 (9/10)),
                          ( "bad", mkMetrics 1 60 2 (3/10))] }

/-- The pending high-priority task of `dbC4`. -/
def taskC4 : Task := mkTask "t1" TaskPriority.high TaskStatus.pending 0

/-- One task with no annotations, for the failure-path examples. -/
def dbC7 : DB :=
  { tasks := [( "t1", mkTask "t1" TaskPriority.medium TaskStatus.pending 0)],
    annotations := [], task_annotations := [], votes := [], task_votes := [],
    consensus := [], annotator_metrics := [] }

/-- One pending task and no annotators on record. -/
def dbC8 : DB :=
  { tasks := [( "t1", mkTask "t1" TaskPriority.low TaskStatus.pending 0)],
    annotations := [], task_annotations := [], votes := [], task_votes := [],
    consensus := [], annotator_metrics := [] }

/-- A task whose two annotations carry one identical caption. -/
def dbC10 : DB :=
  { tasks := [( "t1", mkTask "t1" TaskPriority.medium TaskStatus.awaiting_review 0)],
    annotations := [( "a1", mkAnn "a1" "t1" "u1" "hello world"),
                    ( "a2", mkAnn "a2" "t1" "u2" "hello world")],
    task_annotations := [( "t1", [ "a1", "a2"])],
    votes := [], task_votes := [], consensus := [], annotator_metrics := [] }

/-! ### Association-list and defaultdict lemmas -/

theorem lookup_setk_self {α : Type} (l : List (String × α)) (k : String)
    (v : α) : (setk l k v).lookup k = some v := by
  induction l with
  | nil => simp [setk, List.lookup]
  | cons p rest ih =>
    obtain ⟨k', v'⟩ := p
    by_cases h : k' = k
    · subst h; simp [setk, List.lookup]
    · simp only [setk, if_neg h, List.lookup]
      have : (k == k') = false := by
        simp [beq_iff_eq]; exact fun e => h e.symm
      simp [this, ih]

theorem lookup_setk_ne {α : Type} (l : List (String × α)) (k k' : String)
    (v : α) (h : k' ≠ k) : (setk l k v).lookup k' = l.lookup k' := by
  have hb : (k' == k) = false := beq_eq_false_iff_ne.mpr h
  induction l with
  | nil => simp [setk, List.lookup, hb]
  | cons p rest ih =>
    obtain ⟨k₀, v₀⟩ := p
    by_cases hk : k₀ = k
    · subst hk
      have : (k' == k₀) = false := by simp [beq_iff_eq, h]
      simp [setk, List.lookup, this]
    · simp only [setk, if_neg hk, List.lookup]
      by_cases he : k' = k₀
      · subst he; simp
      · have : (k' == k₀) = false := by simp [beq_iff_eq, he]
        simp [this, ih]

theorem mem_map_fst_setk {α : Type} (l : List (String × α)) (k : String)
    (v : α) : k ∈ (setk l k v).map Prod.fst := by
  induction l with
  | nil => simp [setk]
  | cons p rest ih =>
    obtain ⟨k₀, v₀⟩ := p
    by_cases hk : k₀ = k
    · subst hk; simp [setk]
    · simp only [setk, if_neg hk, List.map_cons, List.mem_cons]
      exact Or.inr ih

theorem ddget_of_mem {α : Type} (l : List (String × α)) (k : String)
    (d v : α) (h : l.lookup k = some v) : ddget l k d = (v, l) := by
  simp [ddget, h]

theorem ddget_of_not_mem {α : Type} (l : List (String × α)) (k : String)
    (d : α) (h : l.lookup k = none) : ddget l k d = (d, l ++ [(k, d)]) := by
  simp [ddget, h]

theorem ddget_fst {α : Type} (l : List (String × α)) (k : String) (d : α) :
    (ddget l k d).1 = (l.lookup k).getD d := by
  cases h : l.lookup k <;> simp [ddget, h]

theorem ddget_snd_lookup_self {α : Type} (l : List (String × α)) (k : String)
    (d : α) : (ddget l k d).2.lookup k = some ((l.lookup k).getD d) := by
  cases h : l.lookup k with
  | some v => simp [ddget, h]
  | none =>
    simp only [ddget, h, Option.getD_none]
    induction l with
    | nil => simp [List.lookup]
    | cons p rest ih =>
      obtain ⟨k₀, v₀⟩ := p
      simp only [List.lookup, List.cons_append] at h ⊢
      cases hb : (k == k₀) with
      | true => simp [hb] at h
      | false => simp only [hb] at h ⊢; exact ih h

theorem ddget_snd_lookup_ne {α : Type} (l : List (String × α)) (k k' : String)
    (d : α) (h : k' ≠ k) : (ddget l k d).2.lookup k' = l.lookup k' := by
  have hb : (k' == k) = false := beq_eq_false_iff_ne.mpr h
  cases hk : l.lookup k with
  | some v => simp [ddget, hk]
  | none =>
    simp only [ddget, hk]
    induction l with
    | nil => simp [List.lookup, hb]
    | cons p rest ih =>
      obtain ⟨k₀, v₀⟩ := p
      simp only [List.lookup, List.cons_append] at hk ⊢
      cases hb : (k' == k₀) with
      | true => simp [hb]
      | false =>
        cases hbk : (k == k₀) with
        | true => simp [hbk] at hk
        | false => simp only [hb, hbk] at hk ⊢; exact ih hk

theorem mem_map_fst_ddget {α : Type} (l : List (String × α)) (k : String)
    (d : α) : k ∈ (ddget l k d).2.map Prod.fst := by
  cases h : l.lookup k with
  | some v =>
    simp only [ddget, h]
    induction l with
    | nil => simp [List.lookup] at h
    | cons p rest ih =>
      obtain ⟨k₀, v₀⟩ := p
      simp only [List.lookup] at h
      cases hb : (k == k₀) with
      | true =>
        have : k = k₀ := by simpa [beq_iff_eq] using hb
        simp [this]
      | false => simp only [hb] at h; simp [ih h]
  | none => simp [ddget, h]

theorem map_fst_setk_of_mem {α : Type} (l : List (String × α)) (k : String)
    (v : α) (h : k ∈ l.map Prod.fst) :
    (setk l k v).map Prod.fst = l.map Prod.fst := by
  induction l with
  | nil => simp at h
  | cons p rest ih =>
    obtain ⟨k₀, v₀⟩ := p
    by_cases hk : k₀ = k
    · subst hk; simp [setk]
    · simp only [List.map_cons, List.mem_cons] at h
      rcases h with h | h
      · exact absurd h.symm hk
      · simp [setk, if_neg hk, ih h]

/-! ### Assignment-scan lemmas -/

theorem findAssignable_eq_find? (reliability : ℚ) (l : List Task) :
    findAssignable reliability l
      = l.find? (fun t => decide (eligible reliability t)) := by
  induction l with
  | nil => rfl
  | cons t rest ih =>
    by_cases h1 : t.status = TaskStatus.pending
    · by_cases h2 : t.priority = TaskPriority.high ∧ reliability < 6/10
      · have hne : ¬ eligible reliability t := fun he => he.2 h2
        rw [List.find?_cons_of_neg _ (by simpa using hne)]
        have hs : ¬ (t.status ≠ TaskStatus.pending) := by simp [h1]
        simp only [findAssignable, if_neg hs, if_pos h2]
        exact ih
      · have he : eligible reliability t := ⟨h1, h2⟩
        rw [List.find?_cons_of_pos _ (by simpa using he)]
        have hs : ¬ (t.status ≠ TaskStatus.pending) := by simp [h1]
        simp only [findAssignable, if_neg hs, if_neg h2]
    · have hne : ¬ eligible reliability t := fun he => h1 he.1
      rw [List.find?_cons_of_neg _ (by simpa using hne)]
      simp only [findAssignable, if_pos h1]
      exact ih

/-! ### Rounding lemmas -/

theorem ratFloor_eq_intFloor (q : ℚ) : q.floor = ⌊q⌋ := by
  rw [Rat.floor_def', Rat.floor_def]

theorem abs_rndHalfEven_sub (q : ℚ) : |((rndHalfEven q : ℤ) : ℚ) - q| ≤ 1/2 := by
  have h1 : ((⌊q⌋ : ℤ) : ℚ) ≤ q := Int.floor_le q
  have h2 : q < ((⌊q⌋ : ℤ) : ℚ) + 1 := Int.lt_floor_add_one q
  unfold rndHalfEven
  rw [ratFloor_eq_intFloor]
  split_ifs with hlt hgt hev <;> rw [abs_le] <;> push_cast <;>
    constructor <;> linarith

theorem rndHalfEven_intCast (n : ℤ) : rndHalfEven (n : ℚ) = n := by
  unfold rndHalfEven
  rw [ratFloor_eq_intFloor, Int.floor_intCast]
  have : ((n : ℚ) - (n : ℚ)) < 1/2 := by norm_num
  simp [this]

theorem round3_thousandths (n : ℤ) : round3 ((n : ℚ)/1000) = (n : ℚ)/1000 := by
  unfold round3
  have h : (n : ℚ)/1000 * 1000 = (n : ℚ) := by ring
  rw [h, rndHalfEven_intCast]

theorem abs_round3_sub (q : ℚ) : |round3 q - q| ≤ 1/2000 := by
  have h := abs_rndHalfEven_sub (q * 1000)
  unfold round3
  rw [abs_le] at h ⊢
  constructor <;> [linarith [h.1]; linarith [h.2]]

theorem int_le_of_cast_le_add_half {k a : ℤ} (h : (k : ℚ) ≤ (a : ℚ) + 1/2) :
    k ≤ a := by
  have h1 : (k : ℚ) < (a : ℚ) + 1 := by linarith
  have h2 : (k : ℚ) < ((a + 1 : ℤ) : ℚ) := by push_cast; linarith
  have h3 : k < a + 1 := by exact_mod_cast h2
  omega

theorem int_le_of_cast_sub_half_le {k a : ℤ} (h : (a : ℚ) - 1/2 ≤ (k : ℚ)) :
    a ≤ k := by
  have h1 : ((a - 1 : ℤ) : ℚ) < (k : ℚ) := by push_cast; linarith
  have h2 : a - 1 < k := by exact_mod_cast h1
  omega

/-- Rounding after clamping to `[0.1, 0.99]` is the same as clamping the
rounded value: the bounds are 3-decimal values themselves. -/
theorem round3_clamp (q : ℚ) :
    round3 (max (1/10) (min (99/100) q)) =
      max (1/10) (min (99/100) (round3 q)) := by
  have hb := abs_rndHalfEven_sub (q * 1000)
  rw [abs_le] at hb
  rcases le_or_lt q (1/10) with hlo | hlo'
  · have hmin : min (99/100 : ℚ) q = q := min_eq_right (by linarith)
    have hmax : max (1/10 : ℚ) q = 1/10 := max_eq_left hlo
    have hk : rndHalfEven (q * 1000) ≤ 100 := by
      apply int_le_of_cast_le_add_half
      push_cast
      linarith [hb.2]
    have hkr : ((rndHalfEven (q * 1000) : ℤ) : ℚ) ≤ 100 := by exact_mod_cast hk
    have h110 : round3 (1/10) = 1/10 := by
      have he : (1/10 : ℚ) = ((100 : ℤ) : ℚ)/1000 := by norm_num
      rw [he, round3_thousandths]
    rw [hmin, hmax, h110]
    have hr3 : round3 q ≤ 1/10 := by
      unfold round3; linarith
    have : min (99/100 : ℚ) (round3 q) = round3 q :=
      min_eq_right (by linarith)
    rw [this, max_eq_left hr3]
  · rcases le_or_lt (99/100 : ℚ) q with hhi | hhi'
    · have hmin : min (99/100 : ℚ) q = 99/100 := min_eq_left hhi
      have hmax : max (1/10 : ℚ) (99/100 : ℚ) = 99/100 := by norm_num
      have hk : (990 : ℤ) ≤ rndHalfEven (q * 1000) := by
        apply int_le_of_cast_sub_half_le
        push_cast
        linarith [hb.1]
      have hkr : (990 : ℚ) ≤ ((rndHalfEven (q * 1000) : ℤ) : ℚ) := by
        exact_mod_cast hk
      have h99 : round3 (99/100) = 99/100 := by
        have he : (99/100 : ℚ) = ((990 : ℤ) : ℚ)/1000 := by norm_num
        rw [he, round3_thousandths]
      rw [hmin, hmax, h99]
      have hr3 : 99/100 ≤ round3 q := by
        unfold round3; linarith
      have : min (99/100 : ℚ) (round3 q) = 99/100 := min_eq_left hr3
      rw [this, max_eq_right (by norm_num : (1/10 : ℚ) ≤ 99/100)]
    · have hmin : min (99/100 : ℚ) q = q := min_eq_right (by linarith)
      have hmax : max (1/10 : ℚ) q = q := max_eq_right (by linarith)
      have hk1 : (100 : ℤ) ≤ rndHalfEven (q * 1000) := by
        apply int_le_of_cast_sub_half_le
        push_cast
        linarith [hb.1]
      have hk2 : rndHalfEven (q * 1000) ≤ 990 := by
        apply int_le_of_cast_le_add_half
        push_cast
        linarith [hb.2]
      have hkr1 : (100 : ℚ) ≤ ((rndHalfEven (q * 1000) : ℤ) : ℚ) := by
        exact_mod_cast hk1
      have hkr2 : ((rndHalfEven (q * 1000) : ℤ) : ℚ) ≤ 990 := by
        exact_mod_cast hk2
      rw [hmin, hmax]
      have hlo3 : 1/10 ≤ round3 q := by unfold round3; linarith
      have hhi3 : round3 q ≤ 99/100 := by unfold round3; linarith
      rw [min_eq_right hhi3, max_eq_right hlo3]

theorem round3_half : round3 (1/2) = 1/2 := by
  have he : (1/2 : ℚ) = ((500 : ℤ) : ℚ)/1000 := by norm_num
  rw [he, round3_thousandths]

/-! ### Word-set lemmas -/

theorem pySetCard_eq (xs : List String) : pySetCard xs = xs.toFinset.card := by
  unfold pySetCard
  rw [List.card_toFinset]

theorem pySetInterCard_eq (xs ys : List String) :
    pySetInterCard xs ys = (xs.toFinset ∩ ys.toFinset).card := by
  unfold pySetInterCard
  have h1 : (xs.dedup.filter (fun w => w ∈ ys)).Nodup :=
    (List.nodup_dedup xs).filter _
  rw [← List.toFinset_card_of_nodup h1]
  congr 1
  ext w
  simp [List.mem_filter, List.mem_dedup, List.mem_toFinset]

theorem self_similarity_half (c : String) (hw : wordsOf c ≠ []) :
    semantic_similarity c c = 1/2 := by
  unfold semantic_similarity pySetInterCard pySetCard
  have hfil : (wordsOf c).dedup.filter (fun w => w ∈ wordsOf c)
      = (wordsOf c).dedup := by
    rw [List.filter_eq_self]
    intro w hwmem
    simpa [List.mem_dedup] using List.mem_dedup.mp hwmem
  rw [hfil]
  have hd : (wordsOf c).dedup.length ≠ 0 := by
    intro h0
    exact hw ((List.dedup_eq_nil (wordsOf c)).mp (List.length_eq_zero.mp h0))
  have hmax : max ((wordsOf c).dedup.length + (wordsOf c).dedup.length) 1
      = (wordsOf c).dedup.length + (wordsOf c).dedup.length :=
    max_eq_left (by omega)
  rw [hmax]
  have hq : (((wordsOf c).dedup.length : ℚ)) /
      (((wordsOf c).dedup.length + (wordsOf c).dedup.length : ℕ) : ℚ) = 1/2 := by
    have hnz : ((wordsOf c).dedup.length : ℚ) ≠ 0 := by
      exact_mod_cast hd
    push_cast
    field_simp
    ring
  simpa only [hq] using round3_half

theorem pymax_const (f : String → ℚ) (x : String) (l : List String)
    (h : ∀ y ∈ l, f y = f x) : pymax f x l = x := by
  induction l with
  | nil => rfl
  | cons y ys ih =>
    have hy : f y = f x := h y (by simp)
    have hlt : ¬ (f x < f y) := by rw [hy]; exact lt_irrefl _
    simp only [pymax, if_neg hlt]
    exact ih (fun z hz => h z (by simp [hz]))

theorem sum_map_const (l : List String) (g : String → ℚ) (v : ℚ)
    (h : ∀ x ∈ l, g x = v) : (l.map g).sum = l.length * v := by
  induction l with
  | nil => simp
  | cons x xs ih =>
    simp only [List.map_cons, List.sum_cons, List.length_cons]
    rw [h x (by simp), ih (fun z hz => h z (by simp [hz]))]
    push_cast
    ring

theorem aggregate_semantic_const (l : List String) (c : String)
    (hne : l ≠ []) (hall : ∀ x ∈ l, x = c) (hw : wordsOf c ≠ []) :
    aggregate_semantic l = some (c, 1/2) := by
  cases l with
  | nil => exact absurd rfl hne
  | cons c0 rest =>
    have hc0 : c0 = c := hall c0 (by simp)
    subst hc0
    simp only [aggregate_semantic]
    have hbest : pymax (fun x => semantic_similarity x c0) c0 rest = c0 := by
      apply pymax_const
      intro y hy
      rw [hall y (by simp [hy])]
    have hsum : ((c0 :: rest).map
        (fun x => semantic_similarity c0 x)).sum
        = ((c0 :: rest).length : ℚ) * (1/2) := by
      rw [sum_map_const]
      intro x hx
      rw [hall x hx]
      exact self_similarity_half c0 hw
    rw [hbest, List.length_map, hsum]
    have hn : (((c0 :: rest).length : ℕ) : ℚ) ≠ 0 :=
      Nat.cast_ne_zero.mpr (by simp)
    have harith : (((c0 :: rest).length : ℚ) * (1/2)) /
        (((c0 :: rest).length : ℕ) : ℚ) = 1/2 := by
      rw [mul_comm, mul_div_assoc, div_self hn, mul_one]
    rw [harith, round3_half]

/-- Characterisation of `request_assignment` through the eligibility scan over
the sorted task list. -/
theorem request_assignment_eq (db : DB) (aid : String) (now : ℕ) :
    request_assignment aid now db =
      match (list_tasks db).find?
          (fun t => decide (eligible (annotatorReliability db aid) t)) with
      | none =>
        (none, { db with annotator_metrics :=
          (ddget db.annotator_metrics aid defaultMetrics).2 })
      | some t0 =>
        (some (assignUpdate t0 aid now),
         { db with
             annotator_metrics :=
               (ddget db.annotator_metrics aid defaultMetrics).2,
             tasks := setk db.tasks t0.id (assignUpdate t0 aid now) }) := by
  simp only [request_assignment]
  have hrel : (ddget db.annotator_metrics aid defaultMetrics).1.reliability
      = annotatorReliability db aid := by
    unfold annotatorReliability
    rw [ddget_fst]
  have hlt : list_tasks { db with annotator_metrics :=
      (ddget db.annotator_metrics aid defaultMetrics).2 } = list_tasks db := rfl
  rw [hrel, hlt, findAssignable_eq_find?]
  unfold assignUpdate
  rfl

/-- C4: if `requestAssignment` returns a task, it is the first task in
(priority descending, creation ascending) order that is pending and not a
high-priority task gated away from a sub-0.6-reliability annotator;
exactly that task is mutated (assignee set, status set to assigned); a
high-priority task is never returned to an annotator with reliability
below 0.6; and `none` is returned exactly when no eligible pending task
exists, leaving the task store unchanged. -/
theorem C4_assignment_scan (db : DB) (aid aidN : String) (now : ℕ) :
    ((list_tasks db).Sorted taskLE
      ∧ (list_tasks db).Perm (db.tasks.map Prod.snd))
    ∧ (∀ t', (request_assignment aid now db).1 = some t' →
        ∃ t0, (list_tasks db).find?
            (fun t => decide (eligible (annotatorReliability db aid) t))
            = some t0
          ∧ t' = assignUpdate t0 aid now
          ∧ (request_assignment aid now db).2.tasks = setk db.tasks t0.id t'
          ∧ (request_assignment aid now db).2.tasks.lookup t0.id = some t'
          ∧ (∀ k, k ≠ t0.id →
              (request_assignment aid now db).2.tasks.lookup k
                = db.tasks.lookup k)
          ∧ ¬(t'.priority = TaskPriority.high
                ∧ annotatorReliability db aid < 6/10))
    ∧ ((request_assignment aidN now db).1 = none →
        (∀ t ∈ list_tasks db, ¬ eligible (annotatorReliability db aidN) t)
        ∧ (request_assignment aidN now db).2.tasks = db.tasks) := by
  refine ⟨⟨List.sorted_insertionSort taskLE _, List.perm_insertionSort taskLE _⟩,
    ?_, ?_⟩
  · intro t' h
    rw [request_assignment_eq] at h
    cases hf : (list_tasks db).find?
        (fun t => decide (eligible (annotatorReliability db aid) t)) with
    | none => rw [hf] at h; exact absurd h (by simp)
    | some t0 =>
      rw [hf] at h
      have ht' : t' = assignUpdate t0 aid now := (Option.some.inj h).symm
      subst ht'
      have hdec := List.find?_some hf
      have he : eligible (annotatorReliability db aid) t0 :=
        of_decide_eq_true hdec
      refine ⟨t0, rfl, rfl, ?_, ?_, ?_, ?_⟩
      · rw [request_assignment_eq, hf]
      · rw [request_assignment_eq, hf]
        exact lookup_setk_self _ _ _
      · intro k hk
        rw [request_assignment_eq, hf]
        exact lookup_setk_ne _ _ _ _ hk
      · exact fun hc => he.2 hc
  · intro h
    rw [request_assignment_eq] at h
    cases hf : (list_tasks db).find?
        (fun t => decide (eligible (annotatorReliability db aidN) t)) with
    | some t0 => rw [hf] at h; exact absurd h (by simp)
    | none =>
      constructor
      · intro t ht hel
        exact (List.find?_eq_none.mp hf t ht) (decide_eq_true hel)
      · rw [request_assignment_eq, hf]

/-- Witness for C4: on `dbC4` the annotator with reliability 0.9 receives
the pending high-priority task, while the annotator with reliability 0.3
gets none and the task store is untouched. -/
theorem C4_assignment_scan_witness :
    ((request_assignment "good" 5 dbC4).1 = some (assignUpdate taskC4 "good" 5))
    ∧ (∃ t0, (list_tasks dbC4).find?
          (fun t => decide (eligible (annotatorReliability dbC4 "good") t))
          = some t0
        ∧ assignUpdate taskC4 "good" 5 = assignUpdate t0 "good" 5
        ∧ (request_assignment "good" 5 dbC4).2.tasks
            = setk dbC4.tasks t0.id (assignUpdate taskC4 "good" 5)
        ∧ (request_assignment "good" 5 dbC4).2.tasks.lookup t0.id
            = some (assignUpdate taskC4 "good" 5)
        ∧ (∀ k, k ≠ t0.id →
            (request_assignment "good" 5 dbC4).2.tasks.lookup k
              = dbC4.tasks.lookup k)
        ∧ ¬((assignUpdate taskC4 "good" 5).priority = TaskPriority.high
              ∧ annotatorReliability dbC4 "good" < 6/10))
    ∧ ((request_assignment "bad" 5 dbC4).1 = none)
    ∧ ((∀ t ∈ list_tasks dbC4, ¬ eligible (annotatorReliability dbC4 "bad") t)
        ∧ (request_assignment "bad" 5 dbC4).2.tasks = dbC4.tasks) :=
  ⟨by with_unfolding_all decide,
   (C4_assignment_scan dbC4 "good" "bad" 5).2.1 (assignUpdate taskC4 "good" 5)
     (by with_unfolding_all decide),
   by with_unfolding_all decide,
   (C4_assignment_scan dbC4 "good" "bad" 5).2.2 (by with_unfolding_all decide)⟩

/-- C5: for all strings `a` and `b`, the shared similarity primitive
returns `|words(a) ∩ words(b)| / max(|words(a)| + |words(b)|, 1)` rounded
to 3 decimals, where `words(x)` is the set of whitespace-delimited words
of the lower-cased `x`. -/
theorem C5_similarity_formula (a b : String) :
    semantic_similarity a b = semantic_similarity_spec a b := by
  unfold semantic_similarity semantic_similarity_spec wordSet
  rw [pySetInterCard_eq, pySetCard_eq, pySetCard_eq]

/-- C9: the priority computation scores `uncertainty * 10 + weight` with
weights low = 1, medium = 5, high = 10 and thresholds 12 (high) and 7
(medium), and maps the three quoted examples accordingly. -/
theorem C9_priority_thresholds (u : ℚ) (d : TaskPriority)
    (h0 : 0 ≤ u) (h1 : u ≤ 1) :
    (12 ≤ u * 10 + (d.value : ℚ) → calculate_priority u d = TaskPriority.high)
    ∧ (7 ≤ u * 10 + (d.value : ℚ) → u * 10 + (d.value : ℚ) < 12 →
        calculate_priority u d = TaskPriority.medium)
    ∧ (u * 10 + (d.value : ℚ) < 7 → calculate_priority u d = TaskPriority.low)
    ∧ calculate_priority (9/10) TaskPriority.medium = TaskPriority.high
    ∧ calculate_priority (1/2) TaskPriority.low = TaskPriority.low
    ∧ calculate_priority (13/20) TaskPriority.medium = TaskPriority.medium := by
  refine ⟨?_, ?_, ?_, ?_, ?_, ?_⟩
  · intro h
    simp only [calculate_priority, if_pos h]
  · intro h7 h12
    have : ¬ (12 ≤ u * 10 + (d.value : ℚ)) := by linarith
    simp only [calculate_priority, if_neg this, if_pos h7]
  · intro h7
    have h12 : ¬ (12 ≤ u * 10 + (d.value : ℚ)) := by linarith
    have h7' : ¬ (7 ≤ u * 10 + (d.value : ℚ)) := by linarith
    simp only [calculate_priority, if_neg h12, if_neg h7']
  · have hv : ((TaskPriority.medium.value : ℕ) : ℚ) = 5 := by norm_num [TaskPriority.value]
    simp only [calculate_priority, hv]
    norm_num
  · have hv : ((TaskPriority.low.value : ℕ) : ℚ) = 1 := by norm_num [TaskPriority.value]
    simp only [calculate_priority, hv]
    norm_num
  · have hv : ((TaskPriority.medium.value : ℕ) : ℚ) = 5 := by norm_num [TaskPriority.value]
    simp only [calculate_priority, hv]
    norm_num

/-- Witness for C9: the first worked example, `u = 0.9`,
`difficulty = medium`, scores 14 and is classified high. -/
theorem C9_priority_thresholds_witness :
    (0 : ℚ) ≤ 9/10 ∧ (9/10 : ℚ) ≤ 1
    ∧ calculate_priority (9/10) TaskPriority.medium = TaskPriority.high :=
  ⟨by with_unfolding_all decide, by with_unfolding_all decide,
   ((C9_priority_thresholds (9/10) TaskPriority.medium
      (by with_unfolding_all decide) (by with_unfolding_all decide)).1
      (by with_unfolding_all decide))⟩

/-- C6: with at least one completed task (and a positive elapsed-time
total, as every reachable state has), the recomputed reliability is
`clamp(0.1, 0.99, round3(0.4 * (1 - disagreements/completed) +
0.6 * min(1, 90 / (total_seconds/completed))))`; with zero completed
tasks it is the default 0.5; and it always lies in `[0.1, 0.99]`. -/
theorem C6_reliability_formula (m : Metrics) :
    (m.completed = 0 → compute_reliability m = 1/2)
    ∧ (1 ≤ m.completed → 0 < m.total_seconds →
        compute_reliability m
          = max (1/10) (min (99/100) (round3
              (4/10 * (1 - (m.disagreements : ℚ) / (m.completed : ℚ))
               + 6/10 * min 1
                   (90 / (m.total_seconds / (m.completed : ℚ)))))))
    ∧ defaultMetrics.reliability = 1/2
    ∧ (1/10 ≤ compute_reliability m ∧ compute_reliability m ≤ 99/100) := by
  have hformula : ∀ hc : ¬ (m.completed = 0),
      compute_reliability m
        = round3 (max (1/10) (min (99/100)
            (4/10 * (1 - (m.disagreements : ℚ) / max (m.completed : ℚ) 1)
             + 6/10 * min 1
                 (90 / max (m.total_seconds / (m.completed : ℚ)) 1)))) := by
    intro hc
    simp only [compute_reliability, if_neg hc]
  refine ⟨?_, ?_, rfl, ?_⟩
  · intro h
    simp [compute_reliability, h]
  · intro hc hts
    have hc0 : ¬ (m.completed = 0) := by omega
    rw [hformula hc0]
    have hc1 : (1:ℚ) ≤ (m.completed : ℚ) := by exact_mod_cast hc
    have hmaxc : max (m.completed : ℚ) 1 = (m.completed : ℚ) := max_eq_left hc1
    have hcpos : (0:ℚ) < (m.completed : ℚ) := by linarith
    have havgpos : 0 < m.total_seconds / (m.completed : ℚ) :=
      div_pos hts hcpos
    have hsf : min (1:ℚ) (90 / max (m.total_seconds / (m.completed : ℚ)) 1)
        = min 1 (90 / (m.total_seconds / (m.completed : ℚ))) := by
      rcases le_or_lt 1 (m.total_seconds / (m.completed : ℚ)) with hge | hlt
      · rw [max_eq_left hge]
      · rw [max_eq_right hlt.le]
        have h90 : (1:ℚ) ≤ 90 / (m.total_seconds / (m.completed : ℚ)) := by
          rw [le_div_iff havgpos]
          linarith
        rw [min_eq_left (by norm_num : (1:ℚ) ≤ 90/1), min_eq_left h90]
    rw [hmaxc, hsf, round3_clamp]
  · by_cases hc : m.completed = 0
    · rw [show compute_reliability m = 1/2 from by
        simp [compute_reliability, hc]]
      norm_num
    · rw [hformula hc, round3_clamp]
      constructor
      · exact le_max_left _ _
      · exact max_le (by norm_num) (le_trans (min_le_left _ _) (by norm_num))

/-- Witness for C6: two completed tasks, 200 seconds, one disagreement
give reliability `clamp(0.1, 0.99, round3(0.4*0.5 + 0.6*0.9))`. -/
theorem C6_reliability_formula_witness :
    1 ≤ (mkMetrics 2 200 1 0).completed
    ∧ (0:ℚ) < (mkMetrics 2 200 1 0).total_seconds
    ∧ compute_reliability (mkMetrics 2 200 1 0)
        = max (1/10) (min (99/100) (round3
            (4/10 * (1 - ((mkMetrics 2 200 1 0).disagreements : ℚ)
                / ((mkMetrics 2 200 1 0).completed : ℚ))
             + 6/10 * min 1
                 (90 / ((mkMetrics 2 200 1 0).total_seconds
                   / ((mkMetrics 2 200 1 0).completed : ℚ)))))) :=
  ⟨by decide, by with_unfolding_all decide,
   (C6_reliability_formula (mkMetrics 2 200 1 0)).2.1 (by decide)
     (by with_unfolding_all decide)⟩

/-- C1 counterexample: on the specification's worked example the code
returns the centroid itself ("a cat sat") as consensus caption — its
self-similarity is 0.5, the highest similarity to the centroid — and a
semantic agreement of 0.347, not "a cat sat on mat" with agreement
`(1.0 + 0.375 + 0.167)/3`. -/
theorem C1_consensus_example_counterexample :
    ((finalize_consensus "t1" 7 dbC1).1.toOption.map
        (fun r => r.consensus_caption)) = some "a cat sat"
    ∧ some "a cat sat" ≠ some "a cat sat on mat"
    ∧ ((finalize_consensus "t1" 7 dbC1).1.toOption.map
        (fun r => r.semantic_agreement)) = some (347/1000)
    ∧ (347/1000 : ℚ) ≠ (1 + 375/1000 + 167/1000)/3 := by
  refine ⟨?_, ?_, ?_, ?_⟩ <;> with_unfolding_all decide

/-- C1 amended: on a task annotated, in submission order, with
"a cat sat", "a cat sat on mat", "a dog ran", `finalizeConsensus` uses
"a cat sat" as centroid and returns consensusCaption = "a cat sat" (the
centroid itself: its self-similarity 0.5 beats 0.375 and 0.167) and
semanticAgreement = round3((0.5 + 0.375 + 0.167)/3) = 0.347, the
centroid's self-similarity being 0.5, not 1.0. -/
theorem C1_consensus_example_amended :
    (finalize_consensus "t1" 7 dbC1).1.toOption = some consC1
    ∧ semantic_similarity "a cat sat" "a cat sat" = 1/2
    ∧ semantic_similarity "a cat sat" "a cat sat on mat" = 375/1000
    ∧ semantic_similarity "a cat sat" "a dog ran" = 167/1000
    ∧ (347/1000 : ℚ) = round3 ((1/2 + 375/1000 + 167/1000)/3) := by
  refine ⟨?_, ?_, ?_, ?_, ?_⟩ <;> with_unfolding_all decide

/-- C10: a non-empty caption's similarity with itself is 0.5, never 1.0;
consequently `finalizeConsensus` on a task all of whose annotations carry
one identical non-empty caption reports a semantic agreement of 0.5 (and
that caption as consensus). -/
theorem C10_self_similarity (c : String) (db : DB) (tid : String) (now : ℕ)
    (t : Task) (ids : List String)
    (hw : wordsOf c ≠ [])
    (ht : db.tasks.lookup tid = some t)
    (hids : (db.task_annotations.lookup tid).getD [] = ids)
    (hne : ids ≠ [])
    (hcap : ∀ i ∈ ids,
      ((db.annotations.lookup i).getD dummyAnn).caption = c) :
    semantic_similarity c c = 1/2
    ∧ ∃ r, (finalize_consensus tid now db).1 = Except.ok r
        ∧ r.semantic_agreement = 1/2 ∧ r.consensus_caption = c := by
  refine ⟨self_similarity_half c hw, ?_⟩
  simp only [finalize_consensus, ht]
  have h1 : (ddget db.task_annotations tid []).1 = ids := by
    rw [ddget_fst, hids]
  rw [h1]
  obtain ⟨i0, rest, rfl⟩ := List.exists_cons_of_ne_nil hne
  have hagg : aggregate_semantic
      (((i0 :: rest).map (fun i =>
          (db.annotations.lookup i).getD dummyAnn)).map
        (fun a => a.caption)) = some (c, 1/2) := by
    apply aggregate_semantic_const _ c (by simp) _ hw
    intro x hx
    simp only [List.map_map, List.mem_map, Function.comp] at hx
    obtain ⟨i, hi, rfl⟩ := hx
    exact hcap i hi
  simp only [List.map_cons, List.isEmpty_cons, Bool.false_eq_true,
    if_false] at hagg ⊢
  rw [hagg]
  exact ⟨_, rfl, rfl, rfl⟩

/-- Witness for C10: two annotations "hello world" on one task give
self-similarity and semantic agreement 0.5. -/
theorem C10_self_similarity_witness :
    semantic_similarity "hello world" "hello world" = 1/2
    ∧ ∃ r, (finalize_consensus "t1" 9 dbC10).1 = Except.ok r
        ∧ r.semantic_agreement = 1/2 ∧ r.consensus_caption = "hello world" :=
  C10_self_similarity "hello world" dbC10 "t1" 9
    (mkTask "t1" TaskPriority.medium TaskStatus.awaiting_review 0)
    [ "a1", "a2"]
    (by decide) (by with_unfolding_all decide) (by decide) (by decide)
    (by decide)

/-- C7: `submitAnnotation`, `submitVote` and `finalizeConsensus` fail with
NotFound when the task does not exist, `finalizeConsensus` fails with a
validation error when the task has no annotations, and every such failure
leaves tasks, annotations, votes, consensus results and annotator metrics
unchanged. -/
theorem C7_failure_preserves_store (db : DB)
    (tidM tidE aid cap annId vid : String) (now : ℕ) (elapsed score : ℚ)
    (rationale : Option String) :
    (db.tasks.lookup tidM = none →
        submitAnn tidM aid cap annId now elapsed db
          = (Except.error Err.notFound, db)
      ∧ submit_vote tidM aid score rationale vid now db
          = (Except.error Err.notFound, db)
      ∧ finalize_consensus tidM now db = (Except.error Err.notFound, db))
    ∧ (∀ t, db.tasks.lookup tidE = some t →
        (db.task_annotations.lookup tidE).getD [] = [] →
          (finalize_consensus tidE now db).1 = Except.error Err.validation
        ∧ (finalize_consensus tidE now db).2.tasks = db.tasks
        ∧ (finalize_consensus tidE now db).2.annotations = db.annotations
        ∧ (finalize_consensus tidE now db).2.votes = db.votes
        ∧ (finalize_consensus tidE now db).2.consensus = db.consensus
        ∧ (finalize_consensus tidE now db).2.annotator_metrics
            = db.annotator_metrics) := by
  constructor
  · intro h
    refine ⟨?_, ?_, ?_⟩
    · simp [submitAnn, h]
    · simp [submit_vote, h]
    · simp [finalize_consensus, h]
  · intro t ht hemp
    have h1 : (ddget db.task_annotations tidE []).1 = [] := by
      rw [ddget_fst, hemp]
    simp [finalize_consensus, ht, h1]

/-- Witness for C7: on `dbC7`, the unknown id "zzz" yields NotFound from
all three operations with the store returned unchanged, and the
annotation-less task "t1" yields a validation failure from
`finalizeConsensus` with every store component unchanged. -/
theorem C7_failure_preserves_store_witness :
    dbC7.tasks.lookup "zzz" = none
    ∧ (submitAnn "zzz" "u9" "w" "a9" 3 60 dbC7
        = (Except.error Err.notFound, dbC7)
      ∧ submit_vote "zzz" "u9" (1/2) none "v9" 3 dbC7
        = (Except.error Err.notFound, dbC7)
      ∧ finalize_consensus "zzz" 3 dbC7 = (Except.error Err.notFound, dbC7))
    ∧ ((finalize_consensus "t1" 3 dbC7).1 = Except.error Err.validation
      ∧ (finalize_consensus "t1" 3 dbC7).2.tasks = dbC7.tasks
      ∧ (finalize_consensus "t1" 3 dbC7).2.annotations = dbC7.annotations
      ∧ (finalize_consensus "t1" 3 dbC7).2.votes = dbC7.votes
      ∧ (finalize_consensus "t1" 3 dbC7).2.consensus = dbC7.consensus
      ∧ (finalize_consensus "t1" 3 dbC7).2.annotator_metrics
          = dbC7.annotator_metrics) :=
  ⟨by decide,
   (C7_failure_preserves_store dbC7 "zzz" "t1" "u9" "w" "a9" "v9" 3 60 (1/2)
      none).1 (by decide),
   (C7_failure_preserves_store dbC7 "zzz" "t1" "u9" "w" "a9" "v9" 3 60 (1/2)
      none).2 (mkTask "t1" TaskPriority.medium TaskStatus.pending 0)
      (by with_unfolding_all decide) (by decide)⟩

/-- The helper `_maybe_update_task_status` never touches the annotator metrics. -/
theorem maybe_update_metrics_eq (tid : String) (now : ℕ) (db : DB) :
    (maybe_update_task_status tid now db).annotator_metrics
      = db.annotator_metrics := by
  simp only [maybe_update_task_status]
  cases h : db.tasks.lookup tid with
  | none => rfl
  | some t =>
    dsimp only
    split <;> rfl

/-- The helper `_update_metrics_on_completion` rewrites exactly the submitting
annotator's metrics entry (inserting it first when absent). -/
theorem update_metrics_metrics_shape (tid aid : String) (elapsed : ℚ)
    (db : DB) :
    ∃ m, (update_metrics_on_completion tid aid elapsed db).annotator_metrics
      = setk (ddget db.annotator_metrics aid defaultMetrics).2 aid m := by
  simp only [update_metrics_on_completion]
  cases h : db.consensus.lookup tid with
  | none => exact ⟨_, rfl⟩
  | some c => exact ⟨_, rfl⟩

/-- C8 counterexample: a bare `requestAssignment` call by an annotator who
has never submitted an annotation creates a dashboard entry for them, so
the dashboard's key set is not "annotators with at least one
annotation". -/
theorem C8_dashboard_keys_counterexample :
    ((request_assignment "alice" 5 dbC8).2.annotator_metrics.map Prod.fst)
      = [ "alice"]
    ∧ (dashboard_snapshot ((request_assignment "alice" 5 dbC8).2)).map
        Prod.fst = [ "alice"]
    ∧ (request_assignment "alice" 5 dbC8).2.annotations = [] := by
  refine ⟨?_, ?_, ?_⟩ <;> with_unfolding_all decide

/-- C8 amended: the dashboard's keys are exactly the keys of the
annotator-metrics store; an entry is created for the submitting annotator
by `submitAnnotation`, but also by `requestAssignment` and
`getReliability` on a previously unseen annotator. -/
theorem C8_dashboard_keys_amended (db : DB) (aid tid cap annId : String)
    (now : ℕ) (elapsed : ℚ) :
    ((dashboard_snapshot db).map Prod.fst
        = db.annotator_metrics.map Prod.fst)
    ∧ aid ∈ ((request_assignment aid now db).2.annotator_metrics.map
        Prod.fst)
    ∧ aid ∈ ((get_reliability aid db).2.annotator_metrics.map Prod.fst)
    ∧ (∀ t, db.tasks.lookup tid = some t →
        aid ∈ ((submitAnn tid aid cap annId now elapsed
            db).2.annotator_metrics.map Prod.fst)) := by
  refine ⟨?_, ?_, ?_, ?_⟩
  · simp [dashboard_snapshot, List.map_map, Function.comp]
  · rw [request_assignment_eq]
    cases hf : (list_tasks db).find?
        (fun t => decide (eligible (annotatorReliability db aid) t)) with
    | none => exact mem_map_fst_ddget _ _ _
    | some t0 => exact mem_map_fst_ddget _ _ _
  · exact mem_map_fst_ddget _ _ _
  · intro t ht
    simp only [submitAnn, ht, Option.isNone_some, Bool.false_eq_true,
      if_false]
    rw [maybe_update_metrics_eq]
    obtain ⟨m, hm⟩ := update_metrics_metrics_shape tid aid elapsed _
    rw [hm]
    exact mem_map_fst_setk _ _ _

/-- Witness for C8 amended: on `dbC8`, submitting an annotation to the
existing task "t1" creates the submitting annotator's metrics entry, as
do a bare assignment request and a reliability query. -/
theorem C8_dashboard_keys_amended_witness :
    ((dashboard_snapshot dbC8).map Prod.fst
        = dbC8.annotator_metrics.map Prod.fst)
    ∧ "alice" ∈ ((request_assignment "alice" 3 dbC8).2.annotator_metrics.map
        Prod.fst)
    ∧ "alice" ∈ ((get_reliability "alice" dbC8).2.annotator_metrics.map
        Prod.fst)
    ∧ "alice" ∈ ((submitAnn "t1" "alice" "w" "a9" 3 60
        dbC8).2.annotator_metrics.map Prod.fst) :=
  ⟨(C8_dashboard_keys_amended dbC8 "alice" "t1" "w" "a9" 3 60).1,
   (C8_dashboard_keys_amended dbC8 "alice" "t1" "w" "a9" 3 60).2.1,
   (C8_dashboard_keys_amended dbC8 "alice" "t1" "w" "a9" 3 60).2.2.1,
   (C8_dashboard_keys_amended dbC8 "alice" "t1" "w" "a9" 3 60).2.2.2
     (mkTask "t1" TaskPriority.low TaskStatus.pending 0)
     (by with_unfolding_all decide)⟩

/-- With a stored consensus, `_update_metrics_on_completion` adds to the
submitting annotator's disagreement counter the number of annotations
currently recorded on the task whose similarity to the consensus caption
is below 0.7. -/
theorem update_metrics_disagreements (tid aid : String) (elapsed : ℚ)
    (db : DB) (c : ConsensusResult)
    (hc : db.consensus.lookup tid = some c) :
    ((update_metrics_on_completion tid aid elapsed
          db).annotator_metrics.lookup aid).map (fun m => m.disagreements)
      = some
          (((db.annotator_metrics.lookup aid).getD
              defaultMetrics).disagreements
            + (((db.task_annotations.lookup tid).getD []).map
                (fun i => (db.annotations.lookup i).getD dummyAnn)).countP
                (fun a => decide (semantic_similarity a.caption
                    c.consensus_caption < 7/10))) := by
  simp only [update_metrics_on_completion, ddget_fst, hc, lookup_setk_self]
  rfl

/-- C3 amended: when a consensus result already exists for the task, a
`submitAnnotation` call increases the submitting annotator's disagreement
counter by the number of annotations then recorded on the task — the
previously recorded ones and the new one — whose semantic similarity to
the consensus caption is below 0.7, not by at most 1. -/
theorem C3_disagreement_amended (db : DB) (tid aid cap annId : String)
    (now : ℕ) (elapsed : ℚ) (t : Task) (c : ConsensusResult)
    (ht : db.tasks.lookup tid = some t)
    (hc : db.consensus.lookup tid = some c)
    (hfresh : annId ∉ (db.task_annotations.lookup tid).getD []) :
    ((submitAnn tid aid cap annId now elapsed
        db).2.annotator_metrics.lookup aid).map (fun m => m.disagreements)
      = some
          (((db.annotator_metrics.lookup aid).getD
              defaultMetrics).disagreements
            + ((((db.task_annotations.lookup tid).getD []).map
                  (fun i => (db.annotations.lookup i).getD dummyAnn))
                ++ [newAnn annId tid aid cap now]).countP
                (fun a => decide (semantic_similarity a.caption
                    c.consensus_caption < 7/10))) := by
  simp only [submitAnn, ht, Option.isNone_some, Bool.false_eq_true,
    if_false]
  rw [maybe_update_metrics_eq]
  rw [update_metrics_disagreements tid aid elapsed _ c (by simpa using hc)]
  simp only [ddget_fst, lookup_setk_self, Option.getD_some, newAnn]
  have hmap : ∀ v : Ann,
      ((db.task_annotations.lookup tid).getD []).map
          (fun i => ((setk db.annotations annId v).lookup i).getD dummyAnn)
        = ((db.task_annotations.lookup tid).getD []).map
            (fun i => (db.annotations.lookup i).getD dummyAnn) := by
    intro v
    apply List.map_congr_left
    intro i hi
    have hne : i ≠ annId := by
      intro he
      rw [he] at hi
      exact hfresh hi
    rw [lookup_setk_ne _ _ _ _ hne]
  rw [List.map_append, hmap]
  simp [lookup_setk_self]

/-- C3 counterexample: on `dbC3` the submitting annotator "eve" has no
prior disagreements (no metrics entry at all), yet a single
`submitAnnotation` call on the re-annotated task raises their counter to
3 — each of the two prior annotations and the new one is counted — which
exceeds the claimed maximum increment of 1. -/
theorem C3_disagreement_counterexample :
    ((submitAnn "t1" "eve" "w" "a3" 9 60 dbC3).2.annotator_metrics.lookup
        "eve").map (fun m => m.disagreements) = some 3
    ∧ dbC3.annotator_metrics.lookup "eve" = none
    ∧ 1 < (3:ℕ) := by
  refine ⟨?_, ?_, ?_⟩
  · with_unfolding_all decide
  · decide
  · decide

/-- Witness for C3 amended: on `dbC3` the counter grows by the number of
annotations on the task (all three are below 0.7 similarity to the
consensus caption). -/
theorem C3_disagreement_amended_witness :
    ((submitAnn "t1" "eve" "w" "a3" 9 60 dbC3).2.annotator_metrics.lookup
        "eve").map (fun m => m.disagreements)
      = some
          (((dbC3.annotator_metrics.lookup "eve").getD
              defaultMetrics).disagreements
            + ((((dbC3.task_annotations.lookup "t1").getD []).map
                  (fun i => (dbC3.annotations.lookup i).getD dummyAnn))
                ++ [newAnn "a3" "t1" "eve" "w" 9]).countP
                (fun a => decide (semantic_similarity a.caption
                    consC3.consensus_caption < 7/10))) :=
  C3_disagreement_amended dbC3 "t1" "eve" "w" "a3" 9 60
    (mkTask "t1" TaskPriority.medium TaskStatus.finalized 0) consC3
    (by with_unfolding_all decide) (by with_unfolding_all decide)
    (by decide)

/-- The helper `_update_metrics_on_completion` never touches the task store. -/
theorem update_metrics_tasks_eq (tid aid : String) (elapsed : ℚ) (db : DB) :
    (update_metrics_on_completion tid aid elapsed db).tasks = db.tasks := by
  simp only [update_metrics_on_completion]
  split <;> rfl

/-- When the task's annotation-id list is already present,
`_update_metrics_on_completion` leaves the annotation index unchanged. -/
theorem update_metrics_task_annotations_eq (tid aid : String) (elapsed : ℚ)
    (db : DB) (v : List String)
    (hv : db.task_annotations.lookup tid = some v) :
    (update_metrics_on_completion tid aid elapsed db).task_annotations
      = db.task_annotations := by
  simp only [update_metrics_on_completion]
  split
  · rfl
  · rw [ddget_of_mem _ _ _ _ hv]

/-- The helper `_maybe_update_task_status` sets the status to `awaiting_review`
whenever the task has at least 3 annotations, whatever the previous
status, and leaves it unchanged otherwise. -/
theorem maybe_update_status_lookup (tid : String) (now : ℕ) (db : DB)
    (t : Task) (ids : List String)
    (ht : db.tasks.lookup tid = some t)
    (hids : db.task_annotations.lookup tid = some ids) :
    ((maybe_update_task_status tid now db).tasks.lookup tid).map
        (fun x => x.status)
      = some (if 3 ≤ ids.length then TaskStatus.awaiting_review
          else t.status) := by
  simp only [maybe_update_task_status, ht]
  have h1 : (ddget db.task_annotations tid []).1 = ids := by
    rw [ddget_fst, hids]
    rfl
  rw [h1]
  by_cases hlen : 3 ≤ ids.length
  · simp only [if_pos hlen, lookup_setk_self]
    rfl
  · simp only [if_neg hlen, ht]
    rfl

/-- C2 amended: `submitAnnotation` sets an existing task's status to
`awaiting_review` exactly when the task then has at least 3 annotations,
regardless of its current status — so a finalized task that receives a
further annotation regresses to `awaiting_review`; `requestAssignment`
only moves a pending task to assigned, and a successful
`finalizeConsensus` always leaves the task finalized. -/
theorem C2_status_forward_amended (db : DB) (tid aid cap annId : String)
    (now : ℕ) (elapsed : ℚ) :
    (∀ t, db.tasks.lookup tid = some t →
      ((submitAnn tid aid cap annId now elapsed db).2.tasks.lookup
          tid).map (fun x => x.status)
        = some (if 3 ≤ ((db.task_annotations.lookup tid).getD []).length + 1
            then TaskStatus.awaiting_review else t.status))
    ∧ (∀ t', (request_assignment aid now db).1 = some t' →
        t'.status = TaskStatus.assigned
        ∧ ∃ t0 ∈ db.tasks.map Prod.snd,
            t0.status = TaskStatus.pending ∧ t' = assignUpdate t0 aid now)
    ∧ (∀ r, (finalize_consensus tid now db).1 = Except.ok r →
        ((finalize_consensus tid now db).2.tasks.lookup tid).map
            (fun x => x.status) = some TaskStatus.finalized) := by
  refine ⟨?_, ?_, ?_⟩
  · intro t ht
    simp only [submitAnn, ht, Option.isNone_some, Bool.false_eq_true,
      if_false]
    rw [maybe_update_status_lookup tid now _ t
        ((ddget db.task_annotations tid []).1 ++ [annId]) ?_ ?_]
    · rw [ddget_fst]
      simp [List.length_append]
    · rw [update_metrics_tasks_eq]
      exact ht
    · rw [update_metrics_task_annotations_eq _ _ _ _
        ((ddget db.task_annotations tid []).1 ++ [annId])
        (lookup_setk_self _ _ _)]
      exact lookup_setk_self _ _ _
  · intro t' h
    cases hf : (list_tasks db).find?
        (fun t => decide (eligible (annotatorReliability db aid) t)) with
    | none =>
      rw [request_assignment_eq, hf] at h
      exact absurd h (by simp)
    | some t0 =>
      rw [request_assignment_eq, hf] at h
      have ht' : t' = assignUpdate t0 aid now := (Option.some.inj h).symm
      subst ht'
      have hdec := List.find?_some hf
      have he : eligible (annotatorReliability db aid) t0 :=
        of_decide_eq_true hdec
      have hmem : t0 ∈ list_tasks db := List.mem_of_find?_eq_some hf
      have hmem' : t0 ∈ db.tasks.map Prod.snd := by
        rwa [list_tasks, List.mem_insertionSort] at hmem
      exact ⟨rfl, t0, hmem', he.1, rfl⟩
  · intro r hr
    cases hts : db.tasks.lookup tid with
    | none => simp [finalize_consensus, hts] at hr
    | some t =>
      simp only [finalize_consensus, hts] at hr ⊢
      cases hids : (ddget db.task_annotations tid []).1 with
      | nil => simp [hids] at hr
      | cons i is =>
        simp only [hids, List.map_cons, List.isEmpty_cons,
          Bool.false_eq_true, if_false, aggregate_semantic] at hr ⊢
        simp [lookup_setk_self]

/-- C2 counterexample: on `dbC2` the task "t1" is already finalized and
has three annotations; one further `submitAnnotation` call moves its
status back to `awaiting_review`, a backward transition. -/
theorem C2_status_regression_counterexample :
    (dbC2.tasks.lookup "t1").map (fun t => t.status)
      = some TaskStatus.finalized
    ∧ (((submitAnn "t1" "dave" "foo" "a4" 9 60 dbC2).2).tasks.lookup
        "t1").map (fun t => t.status) = some TaskStatus.awaiting_review
    ∧ TaskStatus.awaiting_review ≠ TaskStatus.finalized := by
  refine ⟨?_, ?_, ?_⟩
  · decide
  · with_unfolding_all decide
  · decide

/-- Witness for C2 amended: on `dbC2` the finalized task regresses to
`awaiting_review` on a fourth annotation, the assignment moves the
pending task "t2" to assigned, and a successful finalization leaves the
task finalized. -/
theorem C2_status_forward_amended_witness :
    (((submitAnn "t1" "dave" "foo" "a4" 9 60 dbC2).2.tasks.lookup
        "t1").map (fun x => x.status)
      = some (if 3 ≤ ((dbC2.task_annotations.lookup "t1").getD []).length + 1
          then TaskStatus.awaiting_review
          else (mkTask "t1" TaskPriority.medium TaskStatus.finalized
              0).status))
    ∧ ((assignUpdate (mkTask "t2" TaskPriority.low TaskStatus.pending 1)
          "dave" 9).status = TaskStatus.assigned
        ∧ ∃ t0 ∈ dbC2.tasks.map Prod.snd,
            t0.status = TaskStatus.pending
            ∧ assignUpdate (mkTask "t2" TaskPriority.low TaskStatus.pending 1)
                "dave" 9 = assignUpdate t0 "dave" 9)
    ∧ (((finalize_consensus "t1" 9 dbC2).2.tasks.lookup "t1").map
        (fun x => x.status) = some TaskStatus.finalized) :=
  ⟨(C2_status_forward_amended dbC2 "t1" "dave" "foo" "a4" 9 60).1
      (mkTask "t1" TaskPriority.medium TaskStatus.finalized 0)
      (by with_unfolding_all decide),
   (C2_status_forward_amended dbC2 "t1" "dave" "foo" "a4" 9 60).2.1
      (assignUpdate (mkTask "t2" TaskPriority.low TaskStatus.pending 1)
        "dave" 9)
      (by with_unfolding_all decide),
   (C2_status_forward_amended dbC2 "t1" "dave" "foo" "a4" 9 60).2.2
      consC2 (by with_unfolding_all rfl)⟩

end App
